import Mathlib

/-!
Verification development for the multi-strategy asset-acquisition engine in
src/playwright/index.ts. The data model and the tool handlers are embedded
shallowly: browser effects (navigation, clicks, downloads, in-page fetches)
are supplied by explicit outcome oracles, JavaScript Map state is an
association list, and thrown exceptions are Except values. All string
operations are implemented over character lists so that concrete runs
reduce inside the kernel.
-/

/-- Character list test: the first list is an initial run of the second.
Building block for the substring and suffix tests below. -/
def lcLeads : List Char → List Char → Bool
  | [], _ => true
  | _ :: _, [] => false
  | a :: as, b :: bs => a == b && lcLeads as bs

/-- Character list substring occurrence test, modelling the JavaScript
String.prototype.includes method. -/
def lcHasSub : List Char → List Char → Bool
  | s, pat =>
    lcLeads pat s ||
      (match s with
       | [] => false
       | _ :: t => lcHasSub t pat)

/-- Substring test on strings, modelling the JavaScript includes method. -/
def strContains (s pat : String) : Bool :=
  lcHasSub s.toList pat.toList

/-- Suffix test on strings, modelling the JavaScript endsWith method. -/
def strEndsWith (s pat : String) : Bool :=
  lcLeads pat.toList.reverse s.toList.reverse

/-- Lower casing on strings, modelling the JavaScript toLowerCase method. -/
def strLower (s : String) : String :=
  String.mk (s.toList.map Char.toLower)

/-- Last segment of a character list relative to a separator. Models the
JavaScript idiom s.split(sep).pop(): the whole string when the separator is
absent, the run after the last separator otherwise. -/
def lastSeg (sep : Char) (cs : List Char) : List Char :=
  cs.foldl (fun acc c => if c == sep then [] else acc ++ [c]) []

/-- String form of lastSeg: the JavaScript split-then-pop idiom. -/
def jsSplitPop (s : String) (sep : Char) : String :=
  String.mk (lastSeg sep s.toList)

/-- First segment of a string relative to a separator character. Models the
JavaScript idiom s.split(sep)[0]. -/
def firstSeg (sep : Char) (s : String) : String :=
  String.mk (s.toList.takeWhile (fun c => !(c == sep)))

/-- Index of the last occurrence of a character in a list, if any. -/
def lastIdxOf (c : Char) : List Char → Option Nat
  | [] => none
  | a :: as =>
    match lastIdxOf c as with
    | some i => some (i + 1)
    | none => if a == c then some 0 else none

/-- Result object of one tool call: the dispatch layer expects a content
payload together with an isError flag. The content list of the source is
collapsed to its text. -/
structure CallToolResult where
  text : String
  isError : Bool
deriving DecidableEq

/-- Lookup in an association list, modelling JavaScript Map.prototype.get. -/
def mapGet (m : List (String × String)) (k : String) : Option String :=
  (m.find? (fun p => p.1 == k)).map (fun p => p.2)

/-- Insert or update in an association list, modelling JavaScript
Map.prototype.set on a map whose keys are unique: the first entry with the
key is replaced, otherwise the entry is appended. -/
def mapSet (m : List (String × String)) (k v : String) : List (String × String) :=
  match m with
  | [] => [(k, v)]
  | p :: rest => if p.1 == k then (k, v) :: rest else p :: mapSet rest k v

/-- Number of entries of an association list holding a given key. -/
def countKey (m : List (String × String)) (k : String) : Nat :=
  (m.filter (fun p => p.1 == k)).length

/-- Artifact store of the engine: the process wide screenshots map from name
to base64 bytes (line 377) together with the fileTypeMappings map from name
to MIME type (line 2943). -/
structure ArtifactStore where
  screenshots : List (String × String)
  fileTypeMappings : List (String × String)
deriving DecidableEq

/-- Artifact write recording both bytes and MIME type, as performed on the
success paths of the acquisition tools, for example BrowserCaptureRequest at
lines 2006 and 2007: screenshots.set followed by fileTypeMappings.set. -/
def storeArtifact (s : ArtifactStore) (name bytes mime : String) : ArtifactStore :=
  { screenshots := mapSet s.screenshots name bytes
    fileTypeMappings := mapSet s.fileTypeMappings name mime }

/-- Artifact write of the BrowserDownloadPDF success path at line 1127: only
screenshots.set is called, no MIME mapping is recorded. -/
def storePdfDownload (s : ArtifactStore) (name bytes : String) : ArtifactStore :=
  { s with screenshots := mapSet s.screenshots name bytes }

/-- MIME type reported by the ReadResourceRequestSchema handler at lines 2992
and 2993: the recorded mapping when present and truthy, otherwise
application/pdf when the lowercased name ends with .pdf and image/png
otherwise. The empty string case models JavaScript falsiness of the or-else. -/
def resourceMime (s : ArtifactStore) (name : String) : String :=
  let fallback :=
    if strEndsWith (strLower name) ".pdf" then "application/pdf" else "image/png"
  match mapGet s.fileTypeMappings name with
  | some m => if m = "" then fallback else m
  | none => fallback

/-- Screenshot resource read of the ReadResourceRequestSchema handler at lines
2987 to 3003: bytes from the screenshots map together with resourceMime;
none models the fall through to the thrown resource-not-found error. -/
def readResource (s : ArtifactStore) (name : String) : Option (String × String) :=
  match mapGet s.screenshots name with
  | some blob => some (blob, resourceMime s name)
  | none => none

/-- Extension extraction of BrowserForceDownload at line 1223: the suggested
file name is split on dots, the last segment is taken and lowercased. -/
def extractExtension (name : String) : String :=
  strLower (jsSplitPop name '.')

/-- Extension to MIME chain of BrowserForceDownload at lines 1224 to 1229,
defaulting to the generic binary type. -/
def mimeForExtension (ext : String) : String :=
  if ext = "pdf" then "application/pdf"
  else if ext = "doc" ∨ ext = "docx" then "application/msword"
  else if ext = "xls" ∨ ext = "xlsx" then "application/vnd.ms-excel"
  else if ext = "ppt" ∨ ext = "pptx" then "application/vnd.ms-powerpoint"
  else "application/octet-stream"

/-- MIME derivation for a resolved native download, lines 1222 to 1229:
extension extraction composed with the fixed table. -/
def mimeFromSuggestedFilename (name : String) : String :=
  mimeForExtension (extractExtension name)

/-- Error text produced by Playwright when a strict locator resolves to more
than one element. The handlers branch on this text at lines 463, 505 and the
other near-duplicate blocks. -/
def strictViolationMsg : String :=
  "strict mode violation: locator resolved to multiple elements"

/-- Outcome of physically performing an action on a resolved element. -/
inductive ActionOutcome
  | ok
  | fail (msg : String)
deriving DecidableEq

/-- Playwright semantics of acting through a strict locator with a given
number of matches: with exactly one match the action runs on that element,
with several matches the strict mode violation is thrown without running the
action, with none a timeout error is thrown. The result is the thrown error
text, if any, together with the indices of the elements the action ran on. -/
def strictLocatorAct (nMatches : Nat) (act : ActionOutcome) : Option String × List Nat :=
  if nMatches = 0 then (some "Timeout waiting for selector", [])
  else if nMatches = 1 then
    match act with
    | .ok => (none, [0])
    | .fail m => (some m, [0])
  else (some strictViolationMsg, [])

/-- Playwright semantics of acting through locator.first: the action runs on
the element first in document order, index zero. -/
def firstLocatorAct (nMatches : Nat) (act : ActionOutcome) : Option String × List Nat :=
  if nMatches = 0 then (some "Timeout waiting for selector", [])
  else
    match act with
    | .ok => (none, [0])
    | .fail m => (some m, [0])

/-- Observable trace of one resilient action handler: the returned result,
the indices of elements the action actually executed on, and how many times
the click primitive was invoked. -/
structure ActionTrace where
  result : CallToolResult
  executions : List Nat
  invocations : Nat
deriving DecidableEq

/-- Generic transcription of the try-act, on strict mode violation retry on
the first match, control flow shared by BrowserClick (lines 452 to 492),
BrowserClickText (494 to 533) and the other near-duplicate action handlers:
the first attempt goes through the strict locator; a thrown error whose text
holds the strict mode violation marker triggers exactly one retry on the
first match, whose failure yields the failed-twice error result; any other
error yields the single-attempt error result with no retry. -/
def resilientAction (nMatches : Nat) (act retryAct : ActionOutcome)
    (okMsg : String) (failMsg failTwiceMsg : String → String) : ActionTrace :=
  match strictLocatorAct nMatches act with
  | (none, ex) => ⟨⟨okMsg, false⟩, ex, 1⟩
  | (some m, ex) =>
    if strContains m "strict mode violation" then
      match firstLocatorAct nMatches retryAct with
      | (none, ex2) => ⟨⟨okMsg, false⟩, ex ++ ex2, 2⟩
      | (some m2, ex2) => ⟨⟨failTwiceMsg m2, true⟩, ex ++ ex2, 2⟩
    else ⟨⟨failMsg m, true⟩, ex, 1⟩

/-- Handler for the browser click tool, lines 452 to 492. -/
def browserClick (selector : String) (nMatches : Nat) (act retryAct : ActionOutcome) : ActionTrace :=
  resilientAction nMatches act retryAct
    ("Clicked: " ++ selector)
    (fun m => "Failed to click " ++ selector ++ ": " ++ m)
    (fun m => "Failed (twice) to click " ++ selector ++ ": " ++ m)

/-- Handler for the click-by-text tool, lines 494 to 533. -/
def browserClickText (txt : String) (nMatches : Nat) (act retryAct : ActionOutcome) : ActionTrace :=
  resilientAction nMatches act retryAct
    ("Clicked element with text: " ++ txt)
    (fun m => "Failed to click element with text " ++ txt ++ ": " ++ m)
    (fun m => "Failed (twice) to click element with text " ++ txt ++ ": " ++ m)

/-- Handler for the fill tool, lines 535 to 574. -/
def browserFill (selector value : String) (nMatches : Nat) (act retryAct : ActionOutcome) : ActionTrace :=
  resilientAction nMatches act retryAct
    ("Filled " ++ selector ++ " with: " ++ value)
    (fun m => "Failed to fill " ++ selector ++ ": " ++ m)
    (fun m => "Failed (twice) to fill " ++ selector ++ ": " ++ m)

/-- Handler for the select tool, lines 576 to 615. -/
def browserSelect (selector value : String) (nMatches : Nat) (act retryAct : ActionOutcome) : ActionTrace :=
  resilientAction nMatches act retryAct
    ("Selected " ++ selector ++ " with: " ++ value)
    (fun m => "Failed to select " ++ selector ++ ": " ++ m)
    (fun m => "Failed (twice) to select " ++ selector ++ ": " ++ m)

/-- Handler for the select-by-text tool, lines 617 to 656. -/
def browserSelectText (txt value : String) (nMatches : Nat) (act retryAct : ActionOutcome) : ActionTrace :=
  resilientAction nMatches act retryAct
    ("Selected element with text " ++ txt ++ " with value: " ++ value)
    (fun m => "Failed to select element with text " ++ txt ++ ": " ++ m)
    (fun m => "Failed (twice) to select element with text " ++ txt ++ ": " ++ m)

/-- Handler for the hover tool, lines 658 to 697. -/
def browserHover (selector : String) (nMatches : Nat) (act retryAct : ActionOutcome) : ActionTrace :=
  resilientAction nMatches act retryAct
    ("Hovered " ++ selector)
    (fun m => "Failed to hover " ++ selector ++ ": " ++ m)
    (fun m => "Failed to hover " ++ selector ++ ": " ++ m)

/-- Handler for the hover-by-text tool, lines 699 to 738. -/
def browserHoverText (txt : String) (nMatches : Nat) (act retryAct : ActionOutcome) : ActionTrace :=
  resilientAction nMatches act retryAct
    ("Hovered element with text: " ++ txt)
    (fun m => "Failed to hover element with text " ++ txt ++ ": " ++ m)
    (fun m => "Failed (twice) to hover element with text " ++ txt ++ ": " ++ m)

/-- Control flow of the click-then-strict-retry block used inside the
acquisition handlers (for example lines 1183 to 1196): the click succeeds, or
the strict mode violation triggers a retry whose error, if any, escapes the
block, or another error is rethrown. -/
inductive ClickFlow
  | ok
  | strictRetry (retryThrow : Option String)
  | other (e : String)
deriving DecidableEq

/-- Error escaping the click-then-strict-retry block, if any. -/
def clickFlowThrow : ClickFlow → Option String
  | .ok => none
  | .strictRetry none => none
  | .strictRetry (some e) => some e
  | .other e => some e

/-- Target URL pattern test injected by BrowserClickAndExtractUrl at lines
2641 to 2653 and repeated in its fallback filter at lines 2777 to 2787: an
empty URL never matches; otherwise the lowercased URL must end with .pdf or
hold one of the marker substrings. -/
def isTargetUrl (url : String) : Bool :=
  if url = "" then false
  else
    let l := strLower url
    strEndsWith l ".pdf" || strContains l ".pdf?" || strContains l "/pdf/" ||
    strContains l "/download/" || strContains l "/report/" ||
    strContains l "/generate/" || strContains l "blob:"

/-- Environment of one BrowserClickAndExtractUrl call: visibility of the
target button, the navigation-hook callback event with its firing time if
the injected instrumentation reported a URL, the wait budget, and the state
the fallback scan would read from the page. -/
structure ExtractOracle where
  visible : Bool
  callbackAt : Option (Nat × String)
  waitTime : Nat
  interceptedUrls : List String
  lastUrl : Option String
  jsUrls : List String
deriving DecidableEq

/-- Observable outcome of one BrowserClickAndExtractUrl call: the result, the
time at which the race between the callback and the deadline resolved, and
whether the fallback scan of collected URLs and script text was consulted. -/
structure ExtractRun where
  result : CallToolResult
  resolveTime : Nat
  usedFallback : Bool
deriving DecidableEq

/-- Promise race at lines 2730 and 2731 between the exposed-callback promise
and the deadline timer: the callback wins exactly when it fires strictly
before the deadline, and the race resolves at the winning time. -/
def raceUrlVsTimeout (cb : Option (Nat × String)) (deadline : Nat) : Option String × Nat :=
  match cb with
  | some (t, u) => if t < deadline then (some u, t) else (none, deadline)
  | none => (none, deadline)

/-- Fallback scan of BrowserClickAndExtractUrl at lines 2746 to 2815: the
intercepted URLs and the script-embedded URLs are combined, empty strings
dropped, target-pattern URLs kept and the last one returned; otherwise the
last intercepted URL, if truthy; otherwise the no-URL error result. -/
def extractFallbackScan (o : ExtractOracle) (t : Nat) : ExtractRun :=
  let allPotentialUrls := (o.interceptedUrls ++ o.jsUrls).filter (fun u => u != "")
  let targetUrls := allPotentialUrls.filter isTargetUrl
  match targetUrls.getLast? with
  | some u => ⟨⟨u, false⟩, t, true⟩
  | none =>
    match o.lastUrl with
    | some lu =>
      if lu = "" then ⟨⟨"No URL was intercepted after clicking. Timeout occurred.", true⟩, t, true⟩
      else ⟨⟨lu, false⟩, t, true⟩
    | none => ⟨⟨"No URL was intercepted after clicking. Timeout occurred.", true⟩, t, true⟩

/-- Handler for BrowserClickAndExtractUrl, lines 2603 to 2827: locate the
button (an invisible button throws into the outer catch), inject the hooks,
click, then race the exposed callback against the deadline; a truthy URL from
the callback is returned as the result at the race resolution time, otherwise
the fallback scan runs. -/
def browserClickAndExtractUrl (o : ExtractOracle) : ExtractRun :=
  if o.visible = false then
    ⟨⟨"Error during URL extraction: Button not found or not visible.", true⟩, 0, false⟩
  else
    match raceUrlVsTimeout o.callbackAt o.waitTime with
    | (some u, t) =>
      if u = "" then extractFallbackScan o t
      else ⟨⟨u, false⟩, t, false⟩
    | (none, t) => extractFallbackScan o t

/-- Recorded network response of the BrowserCaptureRequest listener at lines
1879 to 1906: URL, status and lowercased content-type header, if present. -/
structure NetResponse where
  url : String
  status : Nat
  contentType : Option String
deriving DecidableEq

/-- Recorded network request of the BrowserCaptureRequest listener at lines
1871 to 1877. -/
structure NetRequest where
  url : String
  resourceType : String
deriving DecidableEq

/-- Response filter of BrowserCaptureRequest strategy one, lines 1959 to
1965: status in the 2xx range and either a content-type header holding pdf
or a URL matching the pdf extension or path patterns. -/
def isPdfResponse (r : NetResponse) : Bool :=
  decide (200 ≤ r.status) && decide (r.status < 300) &&
  ((match r.contentType with
    | some c => strContains (strLower c) "pdf"
    | none => false) ||
   strEndsWith (strLower r.url) ".pdf" ||
   strContains (strLower r.url) ".pdf?" ||
   strContains (strLower r.url) "/pdf/")

/-- Link filter of BrowserCaptureRequest strategy two, lines 2038 to 2043. -/
def isPdfLink (link : String) : Bool :=
  strEndsWith (strLower link) ".pdf" || strContains (strLower link) ".pdf?" ||
  strContains (strLower link) "/pdf/" || strContains (strLower link) "/download/"

/-- Request filter of BrowserCaptureRequest strategy three, lines 2101 to
2107: xhr or fetch requests whose URL holds one of the marker substrings. -/
def isPotentialPdfRequest (r : NetRequest) : Bool :=
  (r.resourceType == "xhr" || r.resourceType == "fetch") &&
  (strContains (strLower r.url) "pdf" || strContains (strLower r.url) "download" ||
   strContains (strLower r.url) "export" || strContains (strLower r.url) "file")

/-- Downward index loop shared by strategies one and three of
BrowserCaptureRequest (lines 1969 to 2025 and 2113 to 2184): the index runs
from the last URL to the first; a failed fetch is logged and the next URL
tried; the first success stops the loop. Returns the attempted URLs in
attempt order together with the first success, if any. -/
def tryUrlsFrom (urls : List String) (fetch : String → Option String) :
    Nat → List String × Option (String × String)
  | 0 => ([], none)
  | i + 1 =>
    match urls.get? i with
    | none => ([], none)
    | some u =>
      match fetch u with
      | some bytes => ([u], some (u, bytes))
      | none =>
        let rest := tryUrlsFrom urls fetch i
        (u :: rest.1, rest.2)

/-- Race over a URL list in the given order: each URL is attempted until the
first fetch success; the attempted URLs are returned in order. The forward
loop of strategy two (lines 2049 to 2097) has exactly this shape. -/
def raceUrls (fetch : String → Option String) : List String → List String × Option (String × String)
  | [] => ([], none)
  | u :: us =>
    match fetch u with
    | some b => ([u], some (u, b))
    | none =>
      let rest := raceUrls fetch us
      (u :: rest.1, rest.2)

/-- MIME determination of strategy three at lines 2157 to 2164: the recorded
content-type header of the matching response, cut at the first semicolon,
when present and truthy; otherwise application/pdf for a pdf URL and the
generic binary type otherwise. -/
def xhrMime (responses : List NetResponse) (url : String) : String :=
  let fromUrl := if strEndsWith (strLower url) ".pdf" then "application/pdf"
                 else "application/octet-stream"
  match responses.find? (fun r => r.url == url) with
  | some r =>
    match r.contentType with
    | some c => if c = "" then fromUrl else firstSeg ';' c
    | none => fromUrl
  | none => fromUrl

/-- Environment of one BrowserCaptureRequest call: outcome of the triggering
click, the recorded responses and requests in arrival order, the page links
before and after the click, and the in-page fetch used by all three
strategies, returning the base64 bytes on success and none when the fetch
failed or threw. -/
structure CaptureOracle where
  click : ClickFlow
  responses : List NetResponse
  requests : List NetRequest
  beforeLinks : List String
  afterLinks : List String
  fetch : String → Option String
  fileName : String

/-- Handler for BrowserCaptureRequest, lines 1818 to 2231, returning the
result, the strategy-one attempted URLs in attempt order, and the artifact
store after the call. Strategy one races the filtered responses most recent
first; strategy two races the new pdf links in document order; strategy
three races the filtered xhr requests most recent first; the failure ladder
at lines 2188 to 2212 still surfaces the best known URL. -/
def browserCaptureRequest (o : CaptureOracle) (s : ArtifactStore) :
    CallToolResult × List String × ArtifactStore :=
  match clickFlowThrow o.click with
  | some e => (⟨"Error capturing requests: " ++ e, true⟩, [], s)
  | none =>
    let pdfResponses := o.responses.filter isPdfResponse
    let s1 := tryUrlsFrom (pdfResponses.map (fun r => r.url)) o.fetch pdfResponses.length
    match s1.2 with
    | some (u, bytes) =>
      (⟨"Successfully downloaded PDF " ++ o.fileName ++ " from network request to " ++ u, false⟩,
       s1.1, storeArtifact s o.fileName bytes "application/pdf")
    | none =>
      let newLinks := o.afterLinks.filter (fun l => !(o.beforeLinks.contains l))
      let pdfLinks := newLinks.filter isPdfLink
      let s2 := raceUrls o.fetch pdfLinks
      match s2.2 with
      | some (u, bytes) =>
        (⟨"Successfully downloaded PDF " ++ o.fileName ++ " from link: " ++ u, false⟩,
         s1.1, storeArtifact s o.fileName bytes "application/pdf")
      | none =>
        let potentialPdfRequests := o.requests.filter isPotentialPdfRequest
        let s3 := tryUrlsFrom (potentialPdfRequests.map (fun r => r.url)) o.fetch
                    potentialPdfRequests.length
        match s3.2 with
        | some (u, bytes) =>
          (⟨"Successfully downloaded file " ++ o.fileName ++ " from XHR request to " ++ u, false⟩,
           s1.1, storeArtifact s o.fileName bytes (xhrMime o.responses u))
        | none =>
          match pdfResponses.getLast? with
          | some r =>
            (⟨"Found PDF URL but could not download automatically. Manual download URL: " ++ r.url,
              true⟩, s1.1, s)
          | none =>
            match pdfLinks.head? with
            | some l =>
              (⟨"Found PDF link but could not download automatically. Manual download URL: " ++ l,
                true⟩, s1.1, s)
            | none =>
              match potentialPdfRequests.getLast? with
              | some r =>
                (⟨"Found potential download request but could not extract file. URL: " ++ r.url,
                  true⟩, s1.1, s)
              | none =>
                (⟨"No PDF content was detected in network traffic after clicking.", true⟩, s1.1, s)

/-- Outcome of the strategy-one save block of BrowserForceDownload, lines
1212 to 1255: the download path and file read either produced the bytes or
threw, in which case the error is logged and the next strategy tried. -/
inductive SaveAttempt
  | saved (bytes : String)
  | failed (e : String)
deriving DecidableEq

/-- Outcome of the strategy-two new-page scan of BrowserForceDownload, lines
1257 to 1381: a direct file URL whose in-page fetch returned bytes or threw,
a detected PDF page whose extraction returned bytes or threw, a page that is
neither, or a scan step that threw; every failure is caught at line 1377 and
the flow continues to strategy three. -/
inductive ExtraPageScan
  | directFile (url : String) (fetched : Option String)
  | pdfEmbedded (url : String) (fetched : Option String)
  | notFile
  | scanThrew (e : String)
deriving DecidableEq

/-- Environment of one BrowserForceDownload call: outcomes of creating the
page in the fresh auxiliary context (line 1164), of the navigation to the
current URL (line 1167), of the triggering click (lines 1183 to 1196), of
the download-event wait with the suggested name and save outcome (lines 1201
to 1255), of the new-page scan, the recorded request URLs, the single
strategy-three fetch with its blob data and type (lines 1396 to 1449), the
file type list and the caller supplied artifact name. -/
structure ForceOracle where
  newPageThrow : Option String
  gotoThrow : Option String
  click : ClickFlow
  download : Option (String × SaveAttempt)
  extraPage : Option ExtraPageScan
  requestUrls : List String
  fetchS3 : Option (String × String)
  fileTypes : List String
  fileName : String
deriving DecidableEq

/-- Handler for BrowserForceDownload, lines 1151 to 1471, tracking the number
of auxiliary browsing contexts still open when the call returns. The
auxiliary context is created at line 1159; every strategy success closes it
before returning, the exhausted path closes it at line 1453, and the
non-ambiguity click error closes it before rethrowing at lines 1193 and
1194. An error thrown by the page creation, by the navigation at line 1167
or by the strict-mode retry click at line 1189 reaches the outer catch at
line 1462, which returns the failure result without closing the context. -/
def browserForceDownload (o : ForceOracle) (s : ArtifactStore) :
    CallToolResult × Nat × ArtifactStore :=
  match o.newPageThrow with
  | some e => (⟨"Failed to force download: " ++ e, true⟩, 1, s)
  | none =>
  match o.gotoThrow with
  | some e => (⟨"Failed to force download: " ++ e, true⟩, 1, s)
  | none =>
  match o.click with
  | .other e => (⟨"Failed to force download: " ++ e, true⟩, 0, s)
  | .strictRetry (some e) => (⟨"Failed to force download: " ++ e, true⟩, 1, s)
  | _ =>
  match o.download with
  | some (suggestedName, .saved bytes) =>
    (⟨"Successfully downloaded file " ++ o.fileName ++ " original name: " ++ suggestedName, false⟩,
     0, storeArtifact s o.fileName bytes (mimeFromSuggestedFilename suggestedName))
  | _ =>
  match o.extraPage with
  | some (.directFile url (some data)) =>
    (⟨"Successfully downloaded file " ++ o.fileName ++ " from URL: " ++ url, false⟩,
     0, storeArtifact s o.fileName data (mimeForExtension (extractExtension url)))
  | some (.pdfEmbedded url (some data)) =>
    (⟨"Successfully downloaded PDF " ++ o.fileName ++ " from URL: " ++ url, false⟩,
     0, storeArtifact s o.fileName data "application/pdf")
  | _ =>
  let fileRequests := o.requestUrls.filter
    (fun u => o.fileTypes.any (fun t => strContains (strLower u) ("." ++ t)))
  match fileRequests.getLast? with
  | some fileUrl =>
    match o.fetchS3 with
    | some (data, blobType) =>
      let mime := if blobType = "" then "application/octet-stream" else blobType
      (⟨"Successfully downloaded file " ++ o.fileName ++ " from URL: " ++ fileUrl, false⟩,
       0, storeArtifact s o.fileName data mime)
    | none =>
      (⟨"Failed to download file. No file download was detected after clicking.", true⟩, 0, s)
  | none =>
    (⟨"Failed to download file. No file download was detected after clicking.", true⟩, 0, s)

/-- Host filesystem model for the direct-download variant: the set of
existing directories and the files with their byte content. -/
structure HostFS where
  dirs : List String
  files : List (String × String)
deriving DecidableEq

/-- Recursive directory creation, fs.mkdir with the recursive flag at line
2887: the directory is added when absent. -/
def mkdirRec (fs : HostFS) (d : String) : HostFS :=
  if fs.dirs.contains d then fs else { fs with dirs := d :: fs.dirs }

/-- File write, fs.writeFile at line 2890. -/
def writeFileFS (fs : HostFS) (p bytes : String) : HostFS :=
  { fs with files := mapSet fs.files p bytes }

/-- File removal, fs.unlink at line 2894: every entry at the path goes away. -/
def unlinkFS (fs : HostFS) (p : String) : HostFS :=
  { fs with files := fs.files.filter (fun q => if q.1 = p then false else true) }

/-- Month names array at line 2878. -/
def monthNames : List String :=
  ["January", "February", "March", "April", "May", "June", "July", "August",
   "September", "October", "November", "December"]

/-- Node path.extname on a file name: the part of the base name from the
last dot on, empty when there is no dot or when the only dot leads the base
name. -/
def pathExtname (p : String) : String :=
  let b := lastSeg '/' p.toList
  match lastIdxOf '.' b with
  | none => ""
  | some 0 => ""
  | some i => String.mk (b.drop i)

/-- Fixed destination directory of the direct-download variant, line 2883. -/
def downloadsPath : String := "/app/Downloads"

/-- Auto-generated file name at lines 2877 to 2880: the eps marker, the
month name, the day and the year joined by underscores, then the original
extension. -/
def autoFileName (month day year : Nat) (ext : String) : String :=
  "eps_" ++ monthNames.getD month "undefined" ++ "_" ++ toString day ++ "_" ++
    toString year ++ ext

/-- Environment of one BrowserClickAndDownloadAuthenticated call: the
triggering click outcome, the download event carrying the temporary path (if
the platform provided one), bytes and suggested name, or none when no
download started before the timeout; the calendar date; and whether the
best-effort temporary file deletion fails. -/
structure AuthDirectOracle where
  click : ClickFlow
  download : Option (Option String × String × String)
  month : Nat
  day : Nat
  year : Nat
  unlinkFails : Bool
deriving DecidableEq

/-- Handler for BrowserClickAndDownloadAuthenticated, lines 2829 to 2929:
after a successful download event the bytes are written under the fixed
destination directory with the date-derived name and the original extension
(default .unknown), the directory is created when missing, and the temporary
file is deleted best-effort, a failure being logged only. The outer catch at
line 2907 maps a timeout to the no-download-started failure and any other
thrown error to the generic failure. -/
def browserClickAndDownloadAuthenticated (o : AuthDirectOracle) (fs : HostFS) :
    CallToolResult × HostFS :=
  let caught := fun (e : String) =>
    if strContains e "Timeout" then
      (⟨"Failed to download: No download started within the time limit after clicking.", true⟩, fs)
    else (⟨"Error during download: " ++ e, true⟩, fs)
  match clickFlowThrow o.click with
  | some e => caught e
  | none =>
    match o.download with
    | none => caught "Timeout 30000ms exceeded while waiting for event download"
    | some (none, _, _) =>
      caught "Download failed: Playwright did not provide a temporary path."
    | some (some tempPath, bytes, suggestedName) =>
      let extension := if pathExtname suggestedName = "" then ".unknown"
                       else pathExtname suggestedName
      let finalSavePath := downloadsPath ++ "/" ++ autoFileName o.month o.day o.year extension
      let fs1 := mkdirRec fs downloadsPath
      let fs2 := writeFileFS fs1 finalSavePath bytes
      let fs3 := if o.unlinkFails then fs2 else unlinkFS fs2 tempPath
      (⟨"File successfully saved to " ++ finalSavePath, false⟩, fs3)

/-- Tool names of the ToolName enumeration at lines 22 to 41, together with
an unknown constructor for the default branch of the dispatch switch. -/
inductive PwToolName
  | browserNavigate
  | browserScreenshot
  | browserClick
  | browserClickText
  | browserFill
  | browserSelect
  | browserSelectText
  | browserHover
  | browserHoverText
  | browserEvaluate
  | browserClickAndCapture
  | browserDownloadPDF
  | browserForceDownload
  | browserAuthenticatedDownload
  | browserCaptureRequest
  | browserInterceptTabs
  | browserClickAndExtractUrl
  | browserClickAndDownloadAuthenticated
  | unknown (s : String)
deriving DecidableEq

/-- Locator environment of one resilient action handler: the number of
matching elements and the outcomes of acting on the resolved element in the
first attempt and in the strict-mode retry. -/
structure ResilientOracle where
  nMatches : Nat
  act : ActionOutcome
  retryAct : ActionOutcome
deriving DecidableEq

/-- Catch wrapper shared by the acquisition handlers whose whole body sits
inside one try block with a catch that builds a failure result from the
error text and never rethrows. -/
def wrapCatch (body : Except String CallToolResult) (catchText : String) : CallToolResult :=
  match body with
  | .ok r => r
  | .error e => ⟨catchText ++ e, true⟩

/-- Environment of one handleToolCall invocation: the outcome of
ensureBrowser at line 400, and one oracle per tool case. For the tools whose
whole body sits inside one try-catch returning a failure result (verified
per handler in the source), the body is abstracted as its outcome. -/
structure EngineOracle where
  ensure : Option String
  url : String
  gotoThrow : Option String
  screenshotThrow : Option String
  screenshotBytes : String
  click : ResilientOracle
  clickText : ResilientOracle
  fill : ResilientOracle
  selectO : ResilientOracle
  selectText : ResilientOracle
  hover : ResilientOracle
  hoverText : ResilientOracle
  evalThrow : Option String
  evalResult : String
  capBody : Except String CallToolResult
  dlPdfBody : Except String CallToolResult
  force : ForceOracle
  authDlBody : Except String CallToolResult
  capture : CaptureOracle
  interceptBody : Except String CallToolResult
  extract : ExtractOracle
  clickDl : AuthDirectOracle
  selector : String
  textArg : String
  valueArg : String

/-- Dispatcher handleToolCall, lines 399 to 2940: ensureBrowser runs outside
every try block, the BrowserNavigate case at lines 403 to 411 awaits the
navigation with no try block around it, the BrowserScreenshot case at lines
413 to 450 awaits the screenshot with no try block around it (the falsy
bytes check at line 421 yields a failure result), and every other case
returns a result object on all paths. An error value models an exception
propagating out of handleToolCall to the dispatch layer. -/
def handleToolCall (name : PwToolName) (o : EngineOracle) (s : ArtifactStore) (fs : HostFS) :
    Except String CallToolResult :=
  match o.ensure with
  | some e => .error e
  | none =>
    match name with
    | .browserNavigate =>
      match o.gotoThrow with
      | some e => .error e
      | none => .ok ⟨"Navigated to " ++ o.url, false⟩
    | .browserScreenshot =>
      match o.screenshotThrow with
      | some e => .error e
      | none =>
        if o.screenshotBytes = "" then .ok ⟨"Screenshot failed", true⟩
        else .ok ⟨"Screenshot taken", false⟩
    | .browserClick =>
      .ok (browserClick o.selector o.click.nMatches o.click.act o.click.retryAct).result
    | .browserClickText =>
      .ok (browserClickText o.textArg o.clickText.nMatches o.clickText.act
            o.clickText.retryAct).result
    | .browserFill =>
      .ok (browserFill o.selector o.valueArg o.fill.nMatches o.fill.act o.fill.retryAct).result
    | .browserSelect =>
      .ok (browserSelect o.selector o.valueArg o.selectO.nMatches o.selectO.act
            o.selectO.retryAct).result
    | .browserSelectText =>
      .ok (browserSelectText o.textArg o.valueArg o.selectText.nMatches o.selectText.act
            o.selectText.retryAct).result
    | .browserHover =>
      .ok (browserHover o.selector o.hover.nMatches o.hover.act o.hover.retryAct).result
    | .browserHoverText =>
      .ok (browserHoverText o.textArg o.hoverText.nMatches o.hoverText.act
            o.hoverText.retryAct).result
    | .browserEvaluate =>
      .ok (match o.evalThrow with
           | some e => ⟨"Script execution failed: " ++ e, true⟩
           | none => ⟨"Execution result: " ++ o.evalResult, false⟩)
    | .browserClickAndCapture =>
      .ok (wrapCatch o.capBody "Failed to click button or capture redirect: ")
    | .browserDownloadPDF =>
      .ok (wrapCatch o.dlPdfBody "Failed to download PDF: ")
    | .browserForceDownload =>
      .ok (browserForceDownload o.force s).1
    | .browserAuthenticatedDownload =>
      .ok (wrapCatch o.authDlBody "Error during authenticated download: ")
    | .browserCaptureRequest =>
      .ok (browserCaptureRequest o.capture s).1
    | .browserInterceptTabs =>
      .ok (wrapCatch o.interceptBody "Error intercepting tab: ")
    | .browserClickAndExtractUrl =>
      .ok (browserClickAndExtractUrl o.extract).result
    | .browserClickAndDownloadAuthenticated =>
      .ok (browserClickAndDownloadAuthenticated o.clickDl fs).1
    | .unknown nm =>
      .ok ⟨"Unknown tool: " ++ nm, true⟩

/-- Effectful step of one acquisition handler, abstracted for the ordering
analysis: arming a signal observer, performing the triggering click, or any
other step. -/
inductive AcqEvent
  | arm (source : String)
  | trigger
  | step (s : String)
deriving DecidableEq

/-- Test for an arming event. -/
def isArmEvent : AcqEvent → Bool
  | .arm _ => true
  | _ => false

/-- All arming events occur strictly before the first triggering click. -/
def armedStrictlyBeforeTrigger : List AcqEvent → Bool
  | [] => true
  | .trigger :: rest => !(rest.any isArmEvent)
  | _ :: rest => armedStrictlyBeforeTrigger rest

/-- Statement order of BrowserClickAndCapture, lines 782 to 886. -/
def clickAndCaptureEvents : List AcqEvent :=
  [.step "read start url and page count lines 788 to 791",
   .arm "context once page listener line 795",
   .trigger,
   .step "await new page or redirect lines 821 to 874"]

/-- Statement order of BrowserDownloadPDF, lines 888 to 1149. -/
def downloadPdfEvents : List AcqEvent :=
  [.arm "context once page listener line 928",
   .trigger,
   .step "await new page and extract lines 956 to 1138"]

/-- Statement order of BrowserForceDownload, lines 1151 to 1471. -/
def forceDownloadEvents : List AcqEvent :=
  [.step "create auxiliary context and navigate lines 1159 to 1167",
   .arm "request listener line 1171",
   .arm "download event wait line 1178",
   .trigger,
   .step "strategies one to three lines 1201 to 1453"]

/-- Statement order of BrowserAuthenticatedDownload, lines 1473 to 1816. -/
def authenticatedDownloadEvents : List AcqEvent :=
  [.step "read url cookies and links lines 1481 to 1497",
   .arm "response listener line 1507",
   .arm "context once page listener line 1520",
   .trigger,
   .step "strategies one to four lines 1544 to 1806"]

/-- Statement order of BrowserCaptureRequest, lines 1818 to 2231; the window
open blocking init script at line 1910 runs only when requested. -/
def captureRequestEvents (blockWindowOpen : Bool) : List AcqEvent :=
  [.arm "request listener line 1871",
   .arm "response listener line 1879"] ++
  (if blockWindowOpen then [.arm "window open blocking init script line 1910"] else []) ++
  [.step "read links before click line 1928",
   .trigger,
   .step "wait and run strategies lines 1953 to 2221"]

/-- Statement order of BrowserInterceptTabs, lines 2233 to 2601. -/
def interceptTabsEvents : List AcqEvent :=
  [.step "locate button and diagnostics lines 2242 to 2273",
   .arm "in page navigation hooks line 2276",
   .trigger,
   .step "collect intercepted urls lines 2386 to 2591"]

/-- Statement order of BrowserClickAndExtractUrl, lines 2603 to 2827. -/
def clickAndExtractUrlEvents : List AcqEvent :=
  [.step "locate button lines 2612 to 2616",
   .arm "exposed callback channel line 2625",
   .arm "in page navigation hooks line 2635",
   .trigger,
   .step "race callback against deadline line 2731"]

/-- Statement order of BrowserClickAndDownloadAuthenticated, lines 2829 to
2929. -/
def clickAndDownloadAuthenticatedEvents : List AcqEvent :=
  [.arm "download event wait line 2838",
   .trigger,
   .step "save bytes to destination lines 2857 to 2905"]

/-- Success test on the result of one dispatch. -/
def exceptIsOk : Except String CallToolResult → Bool
  | .ok _ => true
  | .error _ => false

/-- Planned destination path of the direct-download variant for a given date
and suggested file name: the fixed directory, the date-derived name and the
original extension with the .unknown default. -/
def plannedSavePath (month day year : Nat) (suggestedName : String) : String :=
  downloadsPath ++ "/" ++ autoFileName month day year
    (if pathExtname suggestedName = "" then ".unknown" else pathExtname suggestedName)

/-- Concrete BrowserForceDownload environment in which the navigation of the
auxiliary page at line 1167 throws. -/
def forceOracleGotoFail : ForceOracle :=
  { newPageThrow := none
    gotoThrow := some "Navigation failed: net::ERR_ABORTED"
    click := .ok
    download := none
    extraPage := none
    requestUrls := []
    fetchS3 := none
    fileTypes := ["pdf"]
    fileName := "cert" }

/-- Neutral capture environment for witnesses. -/
def captureOracleBase : CaptureOracle :=
  { click := .ok
    responses := []
    requests := []
    beforeLinks := []
    afterLinks := []
    fetch := fun _ => none
    fileName := "capture" }

/-- Capture environment with one recorded pdf response whose fetch fails. -/
def captureOracleFail : CaptureOracle :=
  { captureOracleBase with
    responses := [⟨"https://host/export.pdf", 200, some "application/pdf"⟩] }

/-- Neutral force-download environment for witnesses. -/
def forceOracleBase : ForceOracle :=
  { newPageThrow := none
    gotoThrow := none
    click := .ok
    download := none
    extraPage := none
    requestUrls := []
    fetchS3 := none
    fileTypes := ["pdf"]
    fileName := "file" }

/-- Neutral extract-url environment for witnesses. -/
def extractOracleBase : ExtractOracle :=
  { visible := true
    callbackAt := none
    waitTime := 5000
    interceptedUrls := []
    lastUrl := none
    jsUrls := [] }

/-- Extract-url environment whose hook callback fires early with a pdf URL. -/
def extractOracleEarly : ExtractOracle :=
  { extractOracleBase with callbackAt := some (120, "https://host/file.pdf") }

/-- Neutral direct-download environment for witnesses. -/
def authDirectOracleBase : AuthDirectOracle :=
  { click := .ok
    download := none
    month := 0
    day := 1
    year := 2026
    unlinkFails := false }

/-- Direct-download environment with a completed download event. -/
def authDirectOracleSaved : AuthDirectOracle :=
  { authDirectOracleBase with
    download := some (some "/tmp/pw-dl-1", "JVBERi0xLjQ=", "certificado.pdf")
    month := 3
    day := 15 }

/-- Neutral resilient locator environment for witnesses. -/
def resilientOracleBase : ResilientOracle :=
  { nMatches := 1, act := .ok, retryAct := .ok }

/-- Neutral dispatch environment for witnesses. -/
def engineOracleBase : EngineOracle :=
  { ensure := none
    url := "https://example.com"
    gotoThrow := none
    screenshotThrow := none
    screenshotBytes := "iVBOR"
    click := resilientOracleBase
    clickText := resilientOracleBase
    fill := resilientOracleBase
    selectO := resilientOracleBase
    selectText := resilientOracleBase
    hover := resilientOracleBase
    hoverText := resilientOracleBase
    evalThrow := none
    evalResult := "1"
    capBody := .ok ⟨"redirected", false⟩
    dlPdfBody := .ok ⟨"saved", false⟩
    force := forceOracleBase
    authDlBody := .ok ⟨"saved", false⟩
    capture := captureOracleBase
    interceptBody := .ok ⟨"intercepted", false⟩
    extract := extractOracleBase
    clickDl := authDirectOracleBase
    selector := "#boton"
    textArg := "Descargar"
    valueArg := "valor" }

/-- Dispatch environment in which the navigation of BrowserNavigate throws. -/
def engineOracleNavFail : EngineOracle :=
  { engineOracleBase with gotoThrow := some "net::ERR_NAME_NOT_RESOLVED" }

theorem lcLeads_self (cs : List Char) : lcLeads cs cs = true := by
  induction cs with
  | nil => rfl
  | cons c t ih => simp [lcLeads, ih]

theorem lcHasSub_self (b : List Char) : lcHasSub b b = true := by
  rw [lcHasSub.eq_def]
  simp [lcLeads_self]

theorem lcHasSub_append_right (a b : List Char) : lcHasSub (a ++ b) b = true := by
  induction a with
  | nil => simpa using lcHasSub_self b
  | cons c t ih =>
    rw [List.cons_append, lcHasSub.eq_def]
    simp [ih]

theorem toList_append (a b : String) : (a ++ b).toList = a.toList ++ b.toList := by
  cases a
  cases b
  rfl

theorem strContains_append_right (a b : String) : strContains (a ++ b) b = true := by
  simp [strContains, toList_append, lcHasSub_append_right]

theorem mapGet_cons_true (p : String × String) (rest : List (String × String)) (k : String)
    (hb : (p.1 == k) = true) : mapGet (p :: rest) k = some p.2 := by
  have h1 : List.find? (fun q => q.1 == k) (p :: rest) = some p :=
    List.find?_cons_of_pos _ hb
  rw [mapGet, h1]
  rfl

theorem mapGet_cons_false (p : String × String) (rest : List (String × String)) (k : String)
    (hb : (p.1 == k) = false) : mapGet (p :: rest) k = mapGet rest k := by
  have h1 : List.find? (fun q => q.1 == k) (p :: rest) = List.find? (fun q => q.1 == k) rest :=
    List.find?_cons_of_neg _ (by simp [hb])
  rw [mapGet, h1, mapGet]

theorem mapGet_mapSet (m : List (String × String)) (k v : String) :
    mapGet (mapSet m k v) k = some v := by
  induction m with
  | nil =>
    rw [mapSet]
    exact mapGet_cons_true (k, v) [] k (by simp)
  | cons p rest ih =>
    cases hb : p.1 == k with
    | true =>
      rw [mapSet, if_pos hb]
      exact mapGet_cons_true (k, v) rest k (by simp)
    | false =>
      rw [mapSet, if_neg (by simp [hb])]
      rw [mapGet_cons_false p _ k hb]
      exact ih

theorem countKey_cons_true (p : String × String) (rest : List (String × String)) (k : String)
    (hb : (p.1 == k) = true) : countKey (p :: rest) k = countKey rest k + 1 := by
  simp [countKey, List.filter_cons, hb]

theorem countKey_cons_false (p : String × String) (rest : List (String × String)) (k : String)
    (hb : (p.1 == k) = false) : countKey (p :: rest) k = countKey rest k := by
  simp [countKey, List.filter_cons, hb]

theorem countKey_mapSet (m : List (String × String)) (k v : String)
    (h : countKey m k ≤ 1) : countKey (mapSet m k v) k = 1 := by
  induction m with
  | nil =>
    rw [mapSet]
    rw [countKey_cons_true (k, v) [] k (by simp)]
    rfl
  | cons p rest ih =>
    cases hb : p.1 == k with
    | true =>
      have h1 : countKey rest k = 0 := by
        have h2 := countKey_cons_true p rest k hb
        omega
      rw [mapSet, if_pos hb, countKey_cons_true (k, v) rest k (by simp), h1]
    | false =>
      have h1 : countKey rest k ≤ 1 := by
        have h2 := countKey_cons_false p rest k hb
        omega
      rw [mapSet, if_neg (by simp [hb]), countKey_cons_false p _ k hb]
      exact ih h1

theorem mapGet_unlink (m : List (String × String)) (p : String) :
    mapGet (m.filter (fun q => if q.1 = p then false else true)) p = none := by
  induction m with
  | nil => rfl
  | cons q rest ih =>
    by_cases h : q.1 = p
    · simpa [List.filter_cons, h] using ih
    · have hstep : (q :: rest).filter (fun q => if q.1 = p then false else true) =
          q :: rest.filter (fun q => if q.1 = p then false else true) := by
        simp [List.filter_cons, h]
      rw [hstep, mapGet_cons_false q _ p (by simp [h])]
      exact ih

theorem mapGet_filter_other (m : List (String × String)) (p k : String) (hk : k ≠ p) :
    mapGet (m.filter (fun q => if q.1 = p then false else true)) k = mapGet m k := by
  induction m with
  | nil => rfl
  | cons q rest ih =>
    by_cases h : q.1 = p
    · have hb : (q.1 == k) = false := by
        simp [h]
        exact fun hq => absurd hq.symm hk
      have hstep : (q :: rest).filter (fun q => if q.1 = p then false else true) =
          rest.filter (fun q => if q.1 = p then false else true) := by
        simp [List.filter_cons, h]
      rw [hstep, mapGet_cons_false q rest k hb, ih]
    · have hstep : (q :: rest).filter (fun q => if q.1 = p then false else true) =
          q :: rest.filter (fun q => if q.1 = p then false else true) := by
        simp [List.filter_cons, h]
      rw [hstep]
      cases hb : q.1 == k with
      | true => rw [mapGet_cons_true q _ k hb, mapGet_cons_true q rest k hb]
      | false =>
        rw [mapGet_cons_false q _ k hb, mapGet_cons_false q rest k hb]
        exact ih

theorem raceUrls_allNone (f : String → Option String) (us : List String)
    (h : ∀ u, f u = none) : raceUrls f us = (us, none) := by
  induction us with
  | nil => rfl
  | cons u t ih => simp [raceUrls, h u, ih]

theorem tryUrlsFrom_take (urls : List String) (f : String → Option String) :
    ∀ n, n ≤ urls.length → tryUrlsFrom urls f n = raceUrls f ((urls.take n).reverse)
  | 0, _ => by simp [tryUrlsFrom, raceUrls]
  | n + 1, h => by
    have hlt : n < urls.length := Nat.lt_of_succ_le h
    have hget : urls.get? n = some (urls.get ⟨n, hlt⟩) := List.get?_eq_get hlt
    have htake : urls.take (n + 1) = urls.take n ++ [urls.get ⟨n, hlt⟩] := by
      simp [List.take_succ, hget]
    have ih := tryUrlsFrom_take urls f n (Nat.le_of_lt hlt)
    rw [tryUrlsFrom, hget, htake]
    simp only [List.reverse_append, List.reverse_cons, List.reverse_nil, List.nil_append,
      List.cons_append, raceUrls]
    cases hf : f (urls.get ⟨n, hlt⟩) with
    | some b => simp [hf]
    | none => simp [hf, ih]

theorem tryUrlsFrom_full (urls : List String) (f : String → Option String) :
    tryUrlsFrom urls f urls.length = raceUrls f urls.reverse := by
  simpa using tryUrlsFrom_take urls f urls.length (Nat.le_refl _)

/-- C4: writing an artifact to the store under a name with an inferred MIME
type and reading it back by name yields exactly the same bytes and that MIME
type; a second write under the same name leaves exactly one entry for that
name in both maps, holding the second payload. -/
theorem artifactStore_roundTrip (s : ArtifactStore) (n b1 m1 b2 m2 : String)
    (hwf1 : countKey s.screenshots n ≤ 1) (hwf2 : countKey s.fileTypeMappings n ≤ 1)
    (hm1 : ¬ m1 = "") (hm2 : ¬ m2 = "") :
    readResource (storeArtifact s n b1 m1) n = some (b1, m1) ∧
    readResource (storeArtifact (storeArtifact s n b1 m1) n b2 m2) n = some (b2, m2) ∧
    countKey (storeArtifact (storeArtifact s n b1 m1) n b2 m2).screenshots n = 1 ∧
    countKey (storeArtifact (storeArtifact s n b1 m1) n b2 m2).fileTypeMappings n = 1 := by
  refine ⟨?_, ?_, ?_, ?_⟩
  · simp [readResource, storeArtifact, resourceMime, mapGet_mapSet, hm1]
  · simp [readResource, storeArtifact, resourceMime, mapGet_mapSet, hm2]
  · have h1 : countKey (mapSet s.screenshots n b1) n ≤ 1 :=
      Nat.le_of_eq (countKey_mapSet s.screenshots n b1 hwf1)
    simpa [storeArtifact] using countKey_mapSet (mapSet s.screenshots n b1) n b2 h1
  · have h1 : countKey (mapSet s.fileTypeMappings n m1) n ≤ 1 :=
      Nat.le_of_eq (countKey_mapSet s.fileTypeMappings n m1 hwf2)
    simpa [storeArtifact] using countKey_mapSet (mapSet s.fileTypeMappings n m1) n m2 h1

/-- Witness for C4 at the empty store with the name report. -/
theorem artifactStore_roundTrip_witness :
    readResource (storeArtifact (⟨[], []⟩ : ArtifactStore) "report" "B" "application/pdf")
      "report" = some ("B", "application/pdf") ∧
    readResource (storeArtifact
      (storeArtifact (⟨[], []⟩ : ArtifactStore) "report" "B" "application/pdf")
      "report" "B2" "application/pdf") "report" = some ("B2", "application/pdf") ∧
    countKey (storeArtifact
      (storeArtifact (⟨[], []⟩ : ArtifactStore) "report" "B" "application/pdf")
      "report" "B2" "application/pdf").screenshots "report" = 1 :=
  have h := artifactStore_roundTrip ⟨[], []⟩ "report" "B" "application/pdf" "B2"
    "application/pdf" (by decide) (by decide) (by decide) (by decide)
  ⟨h.1, h.2.1, h.2.2.1⟩

/-- C9: the MIME type of a resolved native download follows the fixed
extension table of BrowserForceDownload, with every unlisted extension
mapping to the generic binary type, and the derivation from a suggested file
name is that table applied to the extracted extension. -/
theorem nativeDownload_mimeTable (e : String)
    (h : ¬ e ∈ (["pdf", "doc", "docx", "xls", "xlsx", "ppt", "pptx"] : List String)) :
    mimeForExtension "pdf" = "application/pdf" ∧
    mimeForExtension "doc" = "application/msword" ∧
    mimeForExtension "docx" = "application/msword" ∧
    mimeForExtension "xls" = "application/vnd.ms-excel" ∧
    mimeForExtension "xlsx" = "application/vnd.ms-excel" ∧
    mimeForExtension "ppt" = "application/vnd.ms-powerpoint" ∧
    mimeForExtension "pptx" = "application/vnd.ms-powerpoint" ∧
    mimeForExtension e = "application/octet-stream" ∧
    (∀ name : String, mimeFromSuggestedFilename name = mimeForExtension (extractExtension name)) := by
  simp only [List.mem_cons, List.not_mem_nil, or_false, not_or] at h
  obtain ⟨h1, h2, h3, h4, h5, h6, h7⟩ := h
  refine ⟨by decide, by decide, by decide, by decide, by decide, by decide, by decide, ?_,
    fun name => rfl⟩
  simp [mimeForExtension, h1, h2, h3, h4, h5, h6, h7]

/-- Witness for C9 at the unlisted extension zip. -/
theorem nativeDownload_mimeTable_witness :
    mimeForExtension "zip" = "application/octet-stream" ∧
    mimeFromSuggestedFilename "Reporte.Final.PDF" = mimeForExtension
      (extractExtension "Reporte.Final.PDF") :=
  have h := nativeDownload_mimeTable "zip" (by decide)
  ⟨h.2.2.2.2.2.2.2.1, h.2.2.2.2.2.2.2.2 "Reporte.Final.PDF"⟩

/-- C10: a stored artifact name with no recorded MIME mapping is reported
with MIME application/pdf exactly when the lowercased name ends with .pdf
and with image/png otherwise; the new-tab download variant records no
mapping, so a PDF it captured under a name without the .pdf suffix is
reported as image/png. -/
theorem unmappedResource_mimeFallback (s : ArtifactStore) (name bytes : String)
    (hnm : mapGet s.fileTypeMappings name = none) :
    (resourceMime s name = "application/pdf" ↔ strEndsWith (strLower name) ".pdf" = true) ∧
    (strEndsWith (strLower name) ".pdf" = false → resourceMime s name = "image/png") ∧
    (storePdfDownload s name bytes).fileTypeMappings = s.fileTypeMappings ∧
    (strEndsWith (strLower name) ".pdf" = false →
      readResource (storePdfDownload s name bytes) name = some (bytes, "image/png")) := by
  have hmime : resourceMime s name =
      (if strEndsWith (strLower name) ".pdf" = true then "application/pdf" else "image/png") := by
    simp [resourceMime, hnm]
  refine ⟨?_, ?_, rfl, ?_⟩
  · cases hE : strEndsWith (strLower name) ".pdf" with
    | true => rw [hmime, if_pos hE]; simp [hE]
    | false =>
      have hne : ¬ strEndsWith (strLower name) ".pdf" = true := by simp [hE]
      rw [hmime, if_neg hne]
      constructor
      · intro hcontra
        exact absurd hcontra (by decide)
      · intro hcontra
        exact absurd hcontra Bool.false_ne_true
  · intro hE
    have hne : ¬ strEndsWith (strLower name) ".pdf" = true := by simp [hE]
    rw [hmime, if_neg hne]
  · intro hE
    simp [readResource, storePdfDownload, resourceMime, mapGet_mapSet, hnm, hE]

/-- Witness for C10 at a captured PDF stored under a name without the .pdf
suffix. -/
theorem unmappedResource_mimeFallback_witness :
    readResource (storePdfDownload (⟨[], []⟩ : ArtifactStore) "certificado" "JVBERi0=")
      "certificado" = some ("JVBERi0=", "image/png") :=
  (unmappedResource_mimeFallback ⟨[], []⟩ "certificado" "JVBERi0=" rfl).2.2.2 (by decide)

theorem resilientAction_cases (n : Nat) (act retryAct : ActionOutcome) (okMsg : String)
    (failMsg failTwiceMsg : String → String)
    (hact : ∀ m, act = .fail m → strContains m "strict mode violation" = false) :
    (n = 1 →
      (resilientAction n act retryAct okMsg failMsg failTwiceMsg).invocations = 1 ∧
      (resilientAction n act retryAct okMsg failMsg failTwiceMsg).executions = [0] ∧
      (∀ m, act = .fail m →
        (resilientAction n act retryAct okMsg failMsg failTwiceMsg).result.isError = true) ∧
      (act = .ok →
        (resilientAction n act retryAct okMsg failMsg failTwiceMsg).result.isError = false)) ∧
    (2 ≤ n →
      (resilientAction n act retryAct okMsg failMsg failTwiceMsg).invocations = 2 ∧
      (resilientAction n act retryAct okMsg failMsg failTwiceMsg).executions = [0] ∧
      (∀ m2, retryAct = .fail m2 →
        (resilientAction n act retryAct okMsg failMsg failTwiceMsg).result.isError = true) ∧
      (retryAct = .ok →
        (resilientAction n act retryAct okMsg failMsg failTwiceMsg).result.isError = false)) := by
  constructor
  · intro hn
    subst hn
    cases act with
    | ok => simp [resilientAction, strictLocatorAct]
    | fail m =>
      have hm := hact m rfl
      simp [resilientAction, strictLocatorAct, hm]
  · intro hn
    have h0 : ¬ n = 0 := by omega
    have h1 : ¬ n = 1 := by omega
    have hsv : strContains strictViolationMsg "strict mode violation" = true := by decide
    cases retryAct with
    | ok => simp [resilientAction, strictLocatorAct, firstLocatorAct, h0, h1, hsv]
    | fail m2 => simp [resilientAction, strictLocatorAct, firstLocatorAct, h0, h1, hsv]

/-- C3: for the click handlers, a locator with exactly one match runs the
action exactly once on that element; a locator with several matches triggers
exactly one retry against the first match in document order, two click
invocations in total, whose failure yields a failure result; a non-ambiguity
error on a single match is never retried. -/
theorem clickAction_ambiguityRetry (selector txt : String) (n : Nat)
    (act retryAct : ActionOutcome)
    (hact : ∀ m, act = .fail m → strContains m "strict mode violation" = false) :
    (n = 1 →
      (browserClick selector n act retryAct).invocations = 1 ∧
      (browserClick selector n act retryAct).executions = [0] ∧
      (browserClickText txt n act retryAct).invocations = 1 ∧
      (browserClickText txt n act retryAct).executions = [0] ∧
      (∀ m, act = .fail m →
        (browserClick selector n act retryAct).result.isError = true ∧
        (browserClickText txt n act retryAct).result.isError = true)) ∧
    (2 ≤ n →
      (browserClick selector n act retryAct).invocations = 2 ∧
      (browserClick selector n act retryAct).executions = [0] ∧
      (browserClickText txt n act retryAct).invocations = 2 ∧
      (browserClickText txt n act retryAct).executions = [0] ∧
      (∀ m2, retryAct = .fail m2 →
        (browserClick selector n act retryAct).result.isError = true ∧
        (browserClickText txt n act retryAct).result.isError = true) ∧
      (retryAct = .ok →
        (browserClick selector n act retryAct).result.isError = false)) := by
  have hc := resilientAction_cases n act retryAct ("Clicked: " ++ selector)
    (fun m => "Failed to click " ++ selector ++ ": " ++ m)
    (fun m => "Failed (twice) to click " ++ selector ++ ": " ++ m) hact
  have ht := resilientAction_cases n act retryAct ("Clicked element with text: " ++ txt)
    (fun m => "Failed to click element with text " ++ txt ++ ": " ++ m)
    (fun m => "Failed (twice) to click element with text " ++ txt ++ ": " ++ m) hact
  constructor
  · intro hn
    have hc1 := hc.1 hn
    have ht1 := ht.1 hn
    exact ⟨hc1.1, hc1.2.1, ht1.1, ht1.2.1,
      fun m hm => ⟨hc1.2.2.1 m hm, ht1.2.2.1 m hm⟩⟩
  · intro hn
    have hc2 := hc.2 hn
    have ht2 := ht.2 hn
    exact ⟨hc2.1, hc2.2.1, ht2.1, ht2.2.1,
      fun m2 hm2 => ⟨hc2.2.2.1 m2 hm2, ht2.2.2.1 m2 hm2⟩,
      fun hok => hc2.2.2.2 hok⟩

/-- Witness for C3 at a locator with two matches and a succeeding retry. -/
theorem clickAction_ambiguityRetry_witness :
    (browserClick "#btn" 2 .ok .ok).invocations = 2 ∧
    (browserClick "#btn" 2 .ok .ok).executions = [0] ∧
    (browserClickText "Descargar" 2 .ok .ok).invocations = 2 ∧
    (browserClick "#btn" 2 .ok .ok).result.isError = false :=
  have h := (clickAction_ambiguityRetry "#btn" "Descargar" 2 .ok .ok
    (by intro m hm; simp at hm)).2 (by decide)
  ⟨h.1, h.2.1, h.2.2.1, h.2.2.2.2.2 rfl⟩

/-- C6: when the injected navigation hook reports a target-pattern URL
strictly before the wait deadline, the call resolves with that URL at the
callback time, before the deadline elapses, and the fallback scan of
collected URLs and script text is not consulted. -/
theorem hookCallback_earlyExit (o : ExtractOracle) (t : Nat) (u : String)
    (hv : o.visible = true) (hcb : o.callbackAt = some (t, u))
    (ht : t < o.waitTime) (hu : isTargetUrl u = true) :
    (browserClickAndExtractUrl o).result = ⟨u, false⟩ ∧
    (browserClickAndExtractUrl o).resolveTime = t ∧
    (browserClickAndExtractUrl o).resolveTime < o.waitTime ∧
    (browserClickAndExtractUrl o).usedFallback = false := by
  have hne : ¬ u = "" := by
    intro h
    rw [h] at hu
    exact absurd hu (by decide)
  have hrun : browserClickAndExtractUrl o = ⟨⟨u, false⟩, t, false⟩ := by
    simp [browserClickAndExtractUrl, hv, hcb, raceUrlVsTimeout, ht, hne]
  exact ⟨by rw [hrun], by rw [hrun], by rw [hrun]; exact ht, by rw [hrun]⟩

/-- Witness for C6 at a callback firing at time 120 of a 5000 millisecond
budget with a pdf URL. -/
theorem hookCallback_earlyExit_witness :
    (browserClickAndExtractUrl extractOracleEarly).result =
      ⟨"https://host/file.pdf", false⟩ ∧
    (browserClickAndExtractUrl extractOracleEarly).resolveTime = 120 ∧
    (browserClickAndExtractUrl extractOracleEarly).resolveTime <
      extractOracleEarly.waitTime ∧
    (browserClickAndExtractUrl extractOracleEarly).usedFallback = false :=
  hookCallback_earlyExit extractOracleEarly 120 "https://host/file.pdf"
    rfl rfl (by decide) (by decide)

/-- C7: in every acquisition variant, all signal observers are registered
strictly before the triggering click event in the statement order of the
handler. -/
theorem signalSources_armedBeforeTrigger :
    armedStrictlyBeforeTrigger clickAndCaptureEvents = true ∧
    armedStrictlyBeforeTrigger downloadPdfEvents = true ∧
    armedStrictlyBeforeTrigger forceDownloadEvents = true ∧
    armedStrictlyBeforeTrigger authenticatedDownloadEvents = true ∧
    (∀ b : Bool, armedStrictlyBeforeTrigger (captureRequestEvents b) = true) ∧
    armedStrictlyBeforeTrigger interceptTabsEvents = true ∧
    armedStrictlyBeforeTrigger clickAndExtractUrlEvents = true ∧
    armedStrictlyBeforeTrigger clickAndDownloadAuthenticatedEvents = true :=
  ⟨by decide, by decide, by decide, by decide, by intro b; cases b <;> decide,
   by decide, by decide, by decide⟩

/-- C1: on the BrowserForceDownload run in which the navigation of the fresh
auxiliary page throws, the call returns its failure result with the
auxiliary browsing context created at line 1159 still open, contradicting
the closure invariant. -/
theorem forceDownload_auxContextLeak :
    (browserForceDownload forceOracleGotoFail ⟨[], []⟩).2.1 = 1 ∧
    (browserForceDownload forceOracleGotoFail ⟨[], []⟩).1.isError = true :=
  ⟨rfl, rfl⟩

theorem tryUrlsFrom_map_full {α : Type} (l : List α) (g : α → String)
    (f : String → Option String) :
    tryUrlsFrom (l.map g) f l.length = raceUrls f (l.map g).reverse := by
  have h : l.length = (l.map g).length := (List.length_map l g).symm
  rw [h, tryUrlsFrom_full]

theorem getLast?_append_one {α : Type} (l : List α) (a : α) :
    (l ++ [a]).getLast? = some a := by
  rw [← List.head?_reverse]
  simp

/-- C5: in the network-scan capture path, the strategy-one attempts are
exactly the race, most recent first, over the responses passing the
2xx-and-pdf-pattern filter; when every fetch fails the call returns a
failure whose text still carries the most recent candidate URL; and a
successful fetch of the most recent candidate resolves the call with that
URL. -/
theorem captureRequest_networkScanPolicy (o : CaptureOracle) (s : ArtifactStore)
    (hclick : clickFlowThrow o.click = none) :
    ((browserCaptureRequest o s).2.1 =
      (raceUrls o.fetch (((o.responses.filter isPdfResponse).map (fun r => r.url)).reverse)).1) ∧
    (∀ ys r, o.responses.filter isPdfResponse = ys ++ [r] →
      (∀ u, o.fetch u = none) →
      (browserCaptureRequest o s).1.isError = true ∧
      strContains (browserCaptureRequest o s).1.text r.url = true) ∧
    (∀ ys r bytes, o.responses.filter isPdfResponse = ys ++ [r] →
      o.fetch r.url = some bytes →
      (browserCaptureRequest o s).1.isError = false ∧
      strContains (browserCaptureRequest o s).1.text r.url = true) := by
  have hs1 := tryUrlsFrom_map_full (o.responses.filter isPdfResponse)
    (fun r => r.url) o.fetch
  have hs3 := tryUrlsFrom_map_full (o.requests.filter isPotentialPdfRequest)
    (fun r => r.url) o.fetch
  refine ⟨?_, ?_, ?_⟩
  · simp only [browserCaptureRequest, hclick, hs1, hs3]
    repeat' split
    all_goals rfl
  · intro ys r hsplit hnone
    have hrace : ∀ us : List String, raceUrls o.fetch us = (us, none) :=
      fun us => raceUrls_allNone o.fetch us hnone
    have hlast : (o.responses.filter isPdfResponse).getLast? = some r := by
      rw [hsplit]
      exact getLast?_append_one ys r
    simp only [browserCaptureRequest, hclick, hs1, hs3, hrace, hlast]
    exact ⟨trivial, strContains_append_right _ _⟩
  · intro ys r bytes hsplit hfetch
    have hrev : ((o.responses.filter isPdfResponse).map (fun r => r.url)).reverse =
        r.url :: (ys.map (fun r => r.url)).reverse := by
      rw [hsplit]
      simp
    have hwin : raceUrls o.fetch
        (((o.responses.filter isPdfResponse).map (fun r => r.url)).reverse) =
        ([r.url], some (r.url, bytes)) := by
      rw [hrev, raceUrls, hfetch]
    simp only [browserCaptureRequest, hclick, hs1, hs3, hwin]
    exact ⟨trivial, strContains_append_right _ _⟩

/-- Witness for C5 at one recorded pdf response whose fetch fails. -/
theorem captureRequest_networkScanPolicy_witness :
    (browserCaptureRequest captureOracleFail ⟨[], []⟩).1.isError = true ∧
    strContains (browserCaptureRequest captureOracleFail ⟨[], []⟩).1.text
      "https://host/export.pdf" = true :=
  (captureRequest_networkScanPolicy captureOracleFail ⟨[], []⟩ rfl).2.1
    [] ⟨"https://host/export.pdf", 200, some "application/pdf"⟩ (by decide)
    (fun u => rfl)

theorem mkdirRec_contains (fs : HostFS) (d : String) :
    (mkdirRec fs d).dirs.contains d = true := by
  rw [mkdirRec]
  by_cases h : fs.dirs.contains d = true
  · rw [if_pos h]
    exact h
  · rw [if_neg h]
    simp

/-- C8: after a successful download event, the direct-download variant saves
the bytes under the fixed destination directory with the date-derived name
and the original extension, creates the directory entry, removes the
temporary file when the best-effort deletion succeeds, and reports success
even when the deletion fails. -/
theorem directDownload_savesToDatedPath (o : AuthDirectOracle) (fs : HostFS)
    (tempPath bytes suggestedName : String)
    (hdl : o.download = some (some tempPath, bytes, suggestedName))
    (hclick : clickFlowThrow o.click = none)
    (hne : tempPath ≠ plannedSavePath o.month o.day o.year suggestedName) :
    (browserClickAndDownloadAuthenticated o fs).1.isError = false ∧
    (browserClickAndDownloadAuthenticated o fs).2.dirs.contains downloadsPath = true ∧
    mapGet (browserClickAndDownloadAuthenticated o fs).2.files
      (plannedSavePath o.month o.day o.year suggestedName) = some bytes ∧
    (o.unlinkFails = false →
      mapGet (browserClickAndDownloadAuthenticated o fs).2.files tempPath = none) ∧
    (o.unlinkFails = true →
      (browserClickAndDownloadAuthenticated o fs).1.isError = false) := by
  have hrun : browserClickAndDownloadAuthenticated o fs =
      (⟨"File successfully saved to " ++ plannedSavePath o.month o.day o.year suggestedName,
        false⟩,
       if o.unlinkFails then
         writeFileFS (mkdirRec fs downloadsPath)
           (plannedSavePath o.month o.day o.year suggestedName) bytes
       else
         unlinkFS (writeFileFS (mkdirRec fs downloadsPath)
           (plannedSavePath o.month o.day o.year suggestedName) bytes) tempPath) := by
    simp [browserClickAndDownloadAuthenticated, hclick, hdl, plannedSavePath]
  refine ⟨by rw [hrun], ?_, ?_, ?_, fun _ => by rw [hrun]⟩
  · rw [hrun]
    cases hu : o.unlinkFails with
    | true => simpa [writeFileFS] using mkdirRec_contains fs downloadsPath
    | false => simpa [unlinkFS, writeFileFS] using mkdirRec_contains fs downloadsPath
  · rw [hrun]
    cases hu : o.unlinkFails with
    | true =>
      simp only [if_pos rfl, writeFileFS]
      exact mapGet_mapSet _ _ _
    | false =>
      simp only [if_neg Bool.false_ne_true, unlinkFS, writeFileFS]
      rw [mapGet_filter_other _ tempPath _ (Ne.symm hne)]
      exact mapGet_mapSet _ _ _
  · intro hu
    have hcond : ¬ o.unlinkFails = true := by simp [hu]
    rw [hrun, if_neg hcond]
    simp only [unlinkFS, writeFileFS]
    exact mapGet_unlink _ _

/-- Witness for C8 at a completed download of certificado.pdf on April 15. -/
theorem directDownload_savesToDatedPath_witness :
    (browserClickAndDownloadAuthenticated authDirectOracleSaved ⟨[], []⟩).1.isError = false ∧
    mapGet (browserClickAndDownloadAuthenticated authDirectOracleSaved ⟨[], []⟩).2.files
      (plannedSavePath 3 15 2026 "certificado.pdf") = some "JVBERi0xLjQ=" ∧
    mapGet (browserClickAndDownloadAuthenticated authDirectOracleSaved ⟨[], []⟩).2.files
      "/tmp/pw-dl-1" = none :=
  have h := directDownload_savesToDatedPath authDirectOracleSaved ⟨[], []⟩
    "/tmp/pw-dl-1" "JVBERi0xLjQ=" "certificado.pdf" rfl rfl (by decide)
  ⟨h.1, h.2.2.1, h.2.2.2.1 rfl⟩

/-- C2 counterexample: at the BrowserNavigate case with a failing navigation
the dispatcher lets the exception propagate to the dispatch layer instead of
returning a result object. -/
theorem handleToolCall_navigate_throws :
    handleToolCall .browserNavigate engineOracleNavFail ⟨[], []⟩ ⟨[], []⟩ =
      .error "net::ERR_NAME_NOT_RESOLVED" := rfl

/-- C2 amended: once the browser and page are available, every tool case
except BrowserNavigate and BrowserScreenshot returns a well-formed result
object on every outcome of its effects and never lets an exception
propagate to the dispatch layer. -/
theorem handleToolCall_wrapped_total (name : PwToolName) (o : EngineOracle)
    (s : ArtifactStore) (fs : HostFS) (hens : o.ensure = none)
    (h1 : name ≠ .browserNavigate) (h2 : name ≠ .browserScreenshot) :
    exceptIsOk (handleToolCall name o s fs) = true := by
  cases name <;> first
    | exact absurd rfl h1
    | exact absurd rfl h2
    | simp [handleToolCall, hens, exceptIsOk]

/-- Witness for C2 at the click tool with the neutral environment. -/
theorem handleToolCall_wrapped_total_witness :
    exceptIsOk (handleToolCall .browserClick engineOracleBase ⟨[], []⟩ ⟨[], []⟩) = true :=
  handleToolCall_wrapped_total .browserClick engineOracleBase ⟨[], []⟩ ⟨[], []⟩ rfl
    (by decide) (by decide)
